import Mathlib

/-!
Verification of the libvmm core: FAM (flexible-array-member) record types,
the ioctl dispatch primitive, the file-descriptor owning `system` handle,
and the vm-level limit queries.  Each definition is a shallow embedding of
the corresponding C++ entity; the file, line references in the doc
comments point into the repository sources.
-/

namespace Libvmm

/-! ## Dispatch primitive (utility.hpp, `vmm::utility::ioctl`) -/

/-- Structured error thrown by the dispatch layer: `std::system_error{errno,
std::system_category()}` carries the platform error code. -/
structure SystemErr where
  platform_code : Nat
deriving DecidableEq, Repr

/-- Embeds `vmm::utility::ioctl` (utility.hpp lines 32-37): the raw result
`ret` of the underlying `::ioctl` call is tested; a negative result raises
`std::system_error{errno, ...}`, otherwise `ret` is returned (as `unsigned
int`, hence `Int.toNat`). -/
def utility.ioctl (ret : Int) (errno : Nat) : Except SystemErr Nat :=
  if ret < 0 then .error ⟨errno⟩ else .ok ret.toNat

/-- The full call shape `(fd, request, arg) -> signed result`: `platform` is
the underlying `::ioctl` system call (an oracle over fd, request code and
argument), and the wrapper is `vmm::utility::ioctl` applied to its result. -/
def utility.ioctlCall (platform : Nat → Nat → Nat → Int) (errno : Nat)
    (fd req arg : Nat) : Except SystemErr Nat :=
  utility.ioctl (platform fd req arg) errno

/-! ## FAM element types (from the kernel struct layouts quoted in types.cpp) -/

/-- `struct kvm_msr_entry { __u32 index; __u32 reserved; __u64 data; }`. -/
structure kvm_msr_entry where
  index : Nat
  reserved : Nat
  data : Nat
deriving DecidableEq, Repr

/-- Zero value of `kvm_msr_entry`, as produced by the value-initialized
(`new Buffer[n]()`) backing allocation of `FamStruct`. -/
def msrEntryZero : kvm_msr_entry := ⟨0, 0, 0⟩

/-- `struct kvm_cpuid_entry2` (types.cpp lines 103-112): ten 32-bit fields. -/
structure kvm_cpuid_entry2 where
  function : Nat
  index : Nat
  flags : Nat
  eax : Nat
  ebx : Nat
  ecx : Nat
  edx : Nat
  padding0 : Nat
  padding1 : Nat
  padding2 : Nat
deriving DecidableEq, Repr

/-- Zero value of `kvm_cpuid_entry2`. -/
def cpuidEntryZero : kvm_cpuid_entry2 := ⟨0, 0, 0, 0, 0, 0, 0, 0, 0, 0⟩

/-! ## Value-level view of the FAM records

`FamStruct<Struct, Buffer>` (types.hpp lines 33-43) owns one zero-initialized
allocation of `n` `Buffer` units holding a header followed by the trailing
element array.  The value-level view of a record is its header count field
together with the trailing array region. -/

/-- Value view of `kvm_msrs` as owned by `MsrList`: header count `nmsrs`
and the trailing `kvm_msr_entry` array region. -/
structure MsrList where
  nmsrs : Nat
  entries : List kvm_msr_entry
deriving DecidableEq, Repr

/-- `MsrList::MsrList(const size_t n)` (types.cpp line 68): zero-initialized
buffer of `n * 2 + 1` `uint64_t` units, i.e. a trailing array of exactly `n`
zero entries, then `ptr_->nmsrs = n`. -/
def MsrList.alloc (n : Nat) : MsrList :=
  { nmsrs := n, entries := List.replicate n msrEntryZero }

/-- `MsrList::size()` (types.cpp line 81): returns `ptr_->nmsrs`. -/
def MsrList.size (l : MsrList) : Nat := l.nmsrs

/-- The sequence yielded by iterating from `begin()` (`ptr_->entries`) to
`end()` (`ptr_->entries + ptr_->nmsrs`), types.cpp lines 84-87: exactly the
first `nmsrs` elements of the trailing array region. -/
def MsrList.iter (l : MsrList) : List kvm_msr_entry :=
  l.entries.take l.nmsrs

/-- Value view of `kvm_cpuid2` as owned by `CpuidList`. -/
structure CpuidList where
  nent : Nat
  entries : List kvm_cpuid_entry2
deriving DecidableEq, Repr

/-- `CpuidList::CpuidList(const uint32_t n)` (types.cpp line 118):
zero-initialized backing buffer with the trailing array region holding `n`
entries, then `ptr_->nent = n`. -/
def CpuidList.alloc (n : Nat) : CpuidList :=
  { nent := n, entries := List.replicate n cpuidEntryZero }

/-- `CpuidList::size()` (types.cpp line 130): returns `ptr_->nent`. -/
def CpuidList.size (l : CpuidList) : Nat := l.nent

/-- Iterating a `CpuidList` from `begin()` to `end()` (types.cpp 133-136). -/
def CpuidList.iter (l : CpuidList) : List kvm_cpuid_entry2 :=
  l.entries.take l.nent

/-! ## Range construction (`std::copy_if` with an always-true predicate) -/

/-- `std::copy_if(first, last, dst, pred)` writing into the prefix of an
existing destination region `dst`: the elements of `src` satisfying `pred`
are placed sequentially from the start of `dst`, the remainder of `dst` is
left as it was. -/
def copyIf {α : Type} (pred : α → Bool) (src dst : List α) : List α :=
  src.filter pred ++ dst.drop (src.filter pred).length

/-- `MsrList::MsrList(Iterator first, Iterator last)` (types.hpp lines
91-94): delegates to `MsrList(std::distance(first, last))`, then
`std::copy_if(first, last, ptr_->entries, [](kvm_msr_entry) { return true; })`. -/
def MsrList.fromRange (es : List kvm_msr_entry) : MsrList :=
  let base := MsrList.alloc es.length
  { base with entries := copyIf (fun _ => true) es base.entries }

/-- `CpuidList::CpuidList(Iterator first, Iterator last)` (types.hpp lines
152-155): same shape as the `MsrList` range constructor. -/
def CpuidList.fromRange (es : List kvm_cpuid_entry2) : CpuidList :=
  let base := CpuidList.alloc es.length
  { base with entries := copyIf (fun _ => true) es base.entries }

/-- Filtering by the always-true predicate keeps every element. -/
theorem filter_true_eq {α : Type} (es : List α) :
    es.filter (fun _ => true) = es := by
  induction es with
  | nil => rfl
  | cons a t ih => simp [List.filter, ih]

/-- `copy_if` with the always-true predicate over a destination of the same
length is the identity copy. -/
theorem copyIf_true_replicate {α : Type} (z : α) (es : List α) :
    copyIf (fun _ => true) es (List.replicate es.length z) = es := by
  simp [copyIf, filter_true_eq]

/-! ## Heap model for copy and move semantics

Copy and move of a FAM record are about aliasing of the single backing
allocation, so they are stated over an explicit store of allocated buffers.
A live `MsrList` object owns an index into the store (its `ptr_`); `new`
appends a fresh buffer, a store through an element pointer updates one
buffer in place. -/

/-- The set of `MsrList` backing allocations made so far; an owning object
holds an index into `bufs`. -/
structure Store where
  bufs : List MsrList
deriving Repr

/-- Reads the buffer an owner's index designates. -/
def Store.get (s : Store) (i : Nat) : MsrList :=
  s.bufs.getD i (MsrList.alloc 0)

/-- `new Buffer[...]` behind a `FamStruct` constructor: appends a fresh
buffer and hands back its index (the new `ptr_`). -/
def Store.alloc (s : Store) (b : MsrList) : Store × Nat :=
  ({ bufs := s.bufs ++ [b] }, s.bufs.length)

/-- A store through a mutable element pointer of buffer `i` (obtained from
the non-const `begin()`): overwrites trailing-array slot `j` with `v`. -/
def Store.setEntry (s : Store) (i j : Nat) (v : kvm_msr_entry) : Store :=
  { bufs := s.bufs.set i
      (let b := s.get i
       { b with entries := b.entries.set j v }) }

/-- The `MsrList` range constructor run against the store: allocates the
fresh backing buffer of `MsrList.fromRange`. -/
def Store.msrFromRange (s : Store) (es : List kvm_msr_entry) : Store × Nat :=
  s.alloc (MsrList.fromRange es)

/-- `MsrList::MsrList(const MsrList& other)` (types.cpp line 72): delegates
to the range constructor over `other.begin(), other.end()` — a fresh
allocation filled from the source's iterated elements, never a bitwise
duplicate of the raw allocation. -/
def Store.msrCopy (s : Store) (src : Nat) : Store × Nat :=
  s.msrFromRange ((s.get src).iter)

/-- `MsrList::MsrList(MsrList&& other) = default` (types.hpp line 121): the
defaulted move constructor moves the `std::unique_ptr` member, so the
destination takes over the source's allocation index and the source's
`ptr_` becomes null (`none`).  Returns `(destination, what remains of the
source)`. -/
def msrMoveCtor (src : Option Nat) : Option Nat × Option Nat :=
  (src, none)

/-- `MsrList::operator=(MsrList other)` (types.cpp lines 75-78):
`other.ptr_.swap(this->ptr_)`.  The by-value parameter and `this` exchange
allocation indices; `other`'s destruction then frees `this`'s old buffer. -/
def msrSwapAssign (thisPtr otherPtr : Option Nat) : Option Nat × Option Nat :=
  (otherPtr, thisPtr)

/-- Move-assignment path `lhs = std::move(rhs)`: the by-value parameter is
move-constructed from `rhs`, then swapped with `lhs`.  Returns
`(new lhs, what remains of rhs)`. -/
def msrMoveAssign (thisPtr srcPtr : Option Nat) : Option Nat × Option Nat :=
  let moved := msrMoveCtor srcPtr
  let swapped := msrSwapAssign thisPtr moved.1
  (swapped.1, moved.2)

/-- What an owning handle (a possibly-null `ptr_`) sees when iterated:
`none` for a moved-from (null) handle. -/
def handleIter (s : Store) (h : Option Nat) : Option (List kvm_msr_entry) :=
  h.map (fun i => (s.get i).iter)

/-! ## Allocation sizes (in bytes) of the FAM backing buffers

`FamStruct<Struct, Buffer>` (types.hpp lines 38-40) allocates
`new Buffer[n]()`, i.e. `n` units of `sizeof(Buffer)` bytes; each typed
record's constructor chooses `n`.  The struct layouts quoted in the
types.cpp comments fix the header and element sizes. -/

/-- `sizeof(__u32)`. -/
def uint32Size : Nat := 4

/-- `sizeof(__u64)`. -/
def uint64Size : Nat := 8

/-- `sizeof(kvm_msr_list)` header: one `__u32 nmsrs`. -/
def kvmMsrListHeaderSize : Nat := uint32Size

/-- `sizeof(kvm_msrs)` header: `__u32 nmsrs; __u32 pad`. -/
def kvmMsrsHeaderSize : Nat := 2 * uint32Size

/-- `sizeof(kvm_msr_entry)`: `__u32 index; __u32 reserved; __u64 data`. -/
def kvmMsrEntrySize : Nat := 2 * uint32Size + uint64Size

/-- `sizeof(kvm_cpuid2)` header: `__u32 nent; __u32 padding`. -/
def kvmCpuid2HeaderSize : Nat := 2 * uint32Size

/-- `sizeof(kvm_cpuid_entry2)`: ten `__u32` fields (types.cpp 103-112). -/
def kvmCpuidEntry2Size : Nat := 10 * uint32Size

/-- `sizeof(kvm_irq_routing)` header: `__u32 nr; __u32 flags`. -/
def kvmIrqRoutingHeaderSize : Nat := 2 * uint32Size

/-- `sizeof(kvm_irq_routing_entry)`: `gsi, type, flags, pad` (four `__u32`)
plus a 32-byte union (its largest member, `kvm_irq_routing_s390_adapter` /
`__u32 pad[8]`, is 32 bytes), types.cpp lines 152-164. -/
def kvmIrqRoutingEntrySize : Nat := 4 * uint32Size + 8 * uint32Size

/-- `MsrIndexList::MsrIndexList(n) : FamStruct(n + 1)` over
`Buffer = uint32_t` (types.cpp line 25, types.hpp line 45): bytes
allocated. -/
def MsrIndexList.allocBytes (n : Nat) : Nat := (n + 1) * uint32Size

/-- `MsrList::MsrList(n) : FamStruct(n * 2 + 1)` over `Buffer = uint64_t`
(types.cpp line 68, types.hpp line 65): bytes allocated. -/
def MsrList.allocBytes (n : Nat) : Nat := (n * 2 + 1) * uint64Size

/-- `CpuidList::CpuidList(n) : FamStruct(n * sizeof(value_type) + 2)` over
`Buffer = uint32_t` (types.cpp line 118, types.hpp line 133): the unit
count passed is `n * 40 + 2`, so the bytes allocated are that times 4. -/
def CpuidList.allocBytes (n : Nat) : Nat :=
  (n * kvmCpuidEntry2Size + 2) * uint32Size

/-- `IrqRoutingList::IrqRoutingList(n) : FamStruct(n * (sizeof(value_type)
/ 2) + 1)` (types.cpp line 166): the unit count passed, `n * 24 + 1`.  The
header declaring this class's `Buffer` type is not among the sources, so
the unit size is left as a parameter where it matters. -/
def IrqRoutingList.allocUnits (n : Nat) : Nat :=
  n * (kvmIrqRoutingEntrySize / 2) + 1

/-- The exact byte size a FAM record of `n` elements needs:
`header_size + n * element_size`. -/
def famExactBytes (headerSize elemSize n : Nat) : Nat :=
  headerSize + n * elemSize

/-! ## MsrIndexList / MsrFeatureList (types.cpp lines 25-44) -/

/-- Value view of `kvm_msr_list` as owned by `MsrIndexList` (and its
subclass `MsrFeatureList`): header count `nmsrs` and the trailing `__u32
indices` region. -/
structure MsrIndexList where
  nmsrs : Nat
  indices : List Nat
deriving DecidableEq, Repr

/-- `MsrIndexList::size()` (types.cpp line 33): returns `ptr_->nmsrs`. -/
def MsrIndexList.size (l : MsrIndexList) : Nat := l.nmsrs

/-- Iterating from `begin()` (`ptr_->indices`, via `data()`) to `end()`
(`data() + size()`), types.cpp lines 36-39. -/
def MsrIndexList.iter (l : MsrIndexList) : List Nat :=
  l.indices.take l.nmsrs

/-- The non-const `begin()` overload (types.cpp line 36, declared at
types.hpp line 52) returns a mutable `uint32_t*`; a store of `v` through
that pointer at offset `j` overwrites trailing-array slot `j` in place. -/
def MsrIndexList.storeThroughBegin (l : MsrIndexList) (j v : Nat) :
    MsrIndexList :=
  { l with indices := l.indices.set j v }

/-! ## system handle: close / destructor (system.cpp lines 159-192)

`vmm::utils::close` is declared in utility.hpp (line 39) but its body is
not among the sources. -/

/-- Observable state of a `vmm::kvm::system` object for the release
protocol: the `closed_` flag and how many platform close calls this
instance has issued so far. -/
structure SystemState where
  closed_ : Bool
  closeCalls : Nat
deriving DecidableEq, Repr

/-- Modelled from the spec: the body of `vmm::utils::close` is not among
the sources (only its declaration, utility.hpp line 39).  Per the spec it
issues the platform close operation once and fails with a structured error
carrying the platform error code when the platform call reports a failure.
`ret` is the platform close result, `errno` the error code in force. -/
def utilsClose (ret : Int) (errno : Nat) (calls : Nat) :
    Nat × Except SystemErr Unit :=
  (calls + 1, if ret < 0 then .error ⟨errno⟩ else .ok ())

/-- `system::close()` (system.cpp lines 189-192): `utils::close(fd_);
closed_ = true;`.  If `utils::close` throws, the flag assignment is never
reached, so `closed_` stays as it was. -/
def systemClose (st : SystemState) (ret : Int) (errno : Nat) :
    SystemState × Except SystemErr Unit :=
  let c := utilsClose ret errno st.closeCalls
  match c.2 with
  | .ok _ => ({ closed_ := true, closeCalls := c.1 }, .ok ())
  | .error e => ({ st with closeCalls := c.1 }, .error e)

/-- `system::~system()` (system.cpp lines 159-168): only when `!closed_`
does it call `utils::close(fd_)`, and a thrown `std::system_error` is
caught and swallowed; the destructor always returns normally. -/
def systemDtor (st : SystemState) (ret : Int) (errno : Nat) : SystemState :=
  if st.closed_ then st
  else { st with closeCalls := (utilsClose ret errno st.closeCalls).1 }

/-! ## system → vm derivation and vm limit queries

Request codes and capability numbers are the externally supplied constant
table (`linux/kvm.h`); only their identities matter here. -/

/-- `KVM_CREATE_VM` request code. -/
def KVM_CREATE_VM : Nat := 0xAE01

/-- `KVM_CHECK_EXTENSION` request code. -/
def KVM_CHECK_EXTENSION : Nat := 0xAE03

/-- `KVM_GET_VCPU_MMAP_SIZE` request code. -/
def KVM_GET_VCPU_MMAP_SIZE : Nat := 0xAE04

/-- `KVM_CAP_NR_VCPUS` capability number. -/
def KVM_CAP_NR_VCPUS : Nat := 9

/-- `KVM_CAP_NR_MEMSLOTS` capability number. -/
def KVM_CAP_NR_MEMSLOTS : Nat := 10

/-- `KVM_CAP_MAX_VCPUS` capability number. -/
def KVM_CAP_MAX_VCPUS : Nat := 66

/-- The machine-level node (vm.hpp lines 163-168): owns the vm file
descriptor and the cached `KVM_RUN` shared-memory region size, both set by
the private constructor `vm(int fd, std::size_t mmap_size)`. -/
structure Vm where
  m_fd : Nat
  m_mmap_size : Nat
deriving DecidableEq, Repr

/-- `vm::mmap_size()` (vm.cpp lines 259-262): returns the cached
`m_mmap_size`. -/
def Vm.mmap_size (v : Vm) : Nat := v.m_mmap_size

/-- `system::vcpu_mmap_size()` (system.cpp lines 54-56): one ioctl on the
system fd with `KVM_GET_VCPU_MMAP_SIZE` and no argument (the dispatch
primitive's default argument is `int{}`, i.e. 0). -/
def system.vcpu_mmap_size (platform : Nat → Nat → Nat → Int) (errno : Nat)
    (fd : Nat) : Except SystemErr Nat :=
  utility.ioctlCall platform errno fd KVM_GET_VCPU_MMAP_SIZE 0

/-- `system::create_vm()` (system.cpp lines 19-21): one ioctl on the system
fd with `KVM_CREATE_VM`, returning the new vm file descriptor. -/
def system.create_vm (platform : Nat → Nat → Nat → Int) (errno : Nat)
    (fd : Nat) : Except SystemErr Nat :=
  utility.ioctlCall platform errno fd KVM_CREATE_VM 0

/-- `system::vm()` (system.cpp lines 153-157): queries
`vcpu_mmap_size()`, then `create_vm()`, and constructs `vm{fd, mmap_size}`;
a failure of either query propagates. -/
def system.vm (platform : Nat → Nat → Nat → Int) (errno : Nat)
    (fd : Nat) : Except SystemErr Vm :=
  match system.vcpu_mmap_size platform errno fd with
  | .error e => .error e
  | .ok mmap_size =>
    match system.create_vm platform errno fd with
    | .error e => .error e
    | .ok vmfd => .ok ⟨vmfd, mmap_size⟩

/-- `vm::check_extension(cap)` (vm.cpp lines 70-73): one ioctl on the vm fd
with `KVM_CHECK_EXTENSION` and `cap` as argument; non-negative results come
back as `unsigned`. -/
def Vm.check_extension (platform : Nat → Nat → Nat → Int) (errno : Nat)
    (v : Vm) (cap : Nat) : Except SystemErr Nat :=
  utility.ioctlCall platform errno v.m_fd KVM_CHECK_EXTENSION cap

/-- `vm::num_vcpus()` (vm.cpp lines 267-271): `ret =
check_extension(KVM_CAP_NR_VCPUS); return ret > 0 ? ret : 4;`. -/
def Vm.num_vcpus (platform : Nat → Nat → Nat → Int) (errno : Nat)
    (v : Vm) : Except SystemErr Nat :=
  match v.check_extension platform errno KVM_CAP_NR_VCPUS with
  | .error e => .error e
  | .ok ret => .ok (if ret > 0 then ret else 4)

/-- `vm::max_vcpus()` (vm.cpp lines 276-280): `ret =
check_extension(KVM_CAP_MAX_VCPUS); return ret > 0 ? ret : num_vcpus();`. -/
def Vm.max_vcpus (platform : Nat → Nat → Nat → Int) (errno : Nat)
    (v : Vm) : Except SystemErr Nat :=
  match v.check_extension platform errno KVM_CAP_MAX_VCPUS with
  | .error e => .error e
  | .ok ret => if ret > 0 then .ok ret else v.num_vcpus platform errno

/-- `vm::num_memslots()` (vm.cpp lines 285-289): `ret =
check_extension(KVM_CAP_NR_MEMSLOTS); return ret > 0 ? ret : 32;`. -/
def Vm.num_memslots (platform : Nat → Nat → Nat → Int) (errno : Nat)
    (v : Vm) : Except SystemErr Nat :=
  match v.check_extension platform errno KVM_CAP_NR_MEMSLOTS with
  | .error e => .error e
  | .ok ret => .ok (if ret > 0 then ret else 32)

/-! ## Helper lemmas -/

/-- `getD` into the left part of an append. -/
theorem listGetD_append_lt {α : Type} (l m : List α) (d : α) (i : Nat)
    (h : i < l.length) : (l ++ m).getD i d = l.getD i d := by
  induction l generalizing i with
  | nil => simp at h
  | cons a t ih =>
    cases i with
    | zero => rfl
    | succ n => exact ih n (Nat.lt_of_succ_lt_succ h)

/-- `getD` at the position of a freshly appended element. -/
theorem listGetD_append_self {α : Type} (l : List α) (b d : α) :
    (l ++ [b]).getD l.length d = b := by
  induction l with
  | nil => rfl
  | cons a t ih => exact ih

/-- `getD` away from the updated position of a `set`. -/
theorem listGetD_set_ne {α : Type} (l : List α) (i j : Nat) (x d : α)
    (h : j ≠ i) : (l.set i x).getD j d = l.getD j d := by
  induction l generalizing i j with
  | nil => rfl
  | cons a t ih =>
    cases i with
    | zero =>
      cases j with
      | zero => exact absurd rfl h
      | succ n => rfl
    | succ m =>
      cases j with
      | zero => rfl
      | succ n => exact ih m n (fun hh => h (by rw [hh]))

/-- Reading the buffer just allocated. -/
theorem Store.get_alloc_self (s : Store) (b : MsrList) :
    (s.alloc b).1.get (s.alloc b).2 = b := by
  simp only [Store.alloc, Store.get]
  exact listGetD_append_self s.bufs b (MsrList.alloc 0)

/-- An allocation does not change the buffers already present. -/
theorem Store.get_alloc_lt (s : Store) (b : MsrList) (i : Nat)
    (h : i < s.bufs.length) : (s.alloc b).1.get i = s.get i := by
  simp only [Store.alloc, Store.get]
  exact listGetD_append_lt s.bufs [b] (MsrList.alloc 0) i h

/-- A store into buffer `i` leaves every other buffer unchanged. -/
theorem Store.get_setEntry_ne (s : Store) (i j : Nat) (v : kvm_msr_entry)
    (k : Nat) (h : k ≠ i) : (s.setEntry i j v).get k = s.get k := by
  simp only [Store.setEntry, Store.get]
  exact listGetD_set_ne s.bufs i k _ (MsrList.alloc 0) h

/-- The range constructor sets the count to the range's length. -/
theorem MsrList.fromRange_nmsrs (es : List kvm_msr_entry) :
    (MsrList.fromRange es).nmsrs = es.length := rfl

/-- The trailing array produced by the range constructor is the source
range itself. -/
theorem MsrList.fromRange_entries (es : List kvm_msr_entry) :
    (MsrList.fromRange es).entries = es := by
  simp [MsrList.fromRange, MsrList.alloc]
  exact copyIf_true_replicate msrEntryZero es

/-- Iterating a range-constructed record yields the source range. -/
theorem MsrList.fromRange_iter (es : List kvm_msr_entry) :
    (MsrList.fromRange es).iter = es := by
  simp [MsrList.iter, MsrList.fromRange_entries, MsrList.fromRange_nmsrs]

/-- Same facts for `CpuidList`. -/
theorem CpuidList.cpuidFromRange_entries (cs : List kvm_cpuid_entry2) :
    (CpuidList.fromRange cs).entries = cs := by
  simp [CpuidList.fromRange, CpuidList.alloc]
  exact copyIf_true_replicate cpuidEntryZero cs

/-- Iterating a range-constructed `CpuidList` yields the source range. -/
theorem CpuidList.cpuidFromRange_iter (cs : List kvm_cpuid_entry2) :
    (CpuidList.fromRange cs).iter = cs := by
  have h : (CpuidList.fromRange cs).nent = cs.length := rfl
  simp [CpuidList.iter, CpuidList.cpuidFromRange_entries, h]

/-- A well-formed buffer (trailing array exactly as long as the count)
iterates exactly `nmsrs` elements. -/
theorem MsrList.iter_length_of_wf (b : MsrList)
    (h : b.entries.length = b.nmsrs) : b.iter.length = b.nmsrs := by
  simp [MsrList.iter, h]

/-! ## Claim theorems -/

/-- Claim C1: for every underlying call (any fd, request code and
argument), the dispatch primitive `vmm::utility::ioctl` returns the
underlying result as a non-negative integer when that result is
non-negative, raises a structured error carrying the platform error code
whenever the result is negative, and never returns a success value for a
negative result (every success value equals the non-negative raw result). -/
theorem ioctl_dispatch_contract (platform : Nat → Nat → Nat → Int)
    (errno fd req arg : Nat) :
    (0 ≤ platform fd req arg →
      utility.ioctlCall platform errno fd req arg
        = .ok (platform fd req arg).toNat)
    ∧ (platform fd req arg < 0 →
      utility.ioctlCall platform errno fd req arg = .error ⟨errno⟩)
    ∧ (∀ n : Nat, utility.ioctlCall platform errno fd req arg = .ok n →
      (n : Int) = platform fd req arg) := by
  refine ⟨?_, ?_, ?_⟩
  · intro h
    simp [utility.ioctlCall, utility.ioctl, not_lt.mpr h]
  · intro h
    simp [utility.ioctlCall, utility.ioctl, h]
  · intro n h
    by_cases hc : platform fd req arg < 0
    · simp [utility.ioctlCall, utility.ioctl, hc] at h
    · simp [utility.ioctlCall, utility.ioctl, hc] at h
      rw [← h, Int.toNat_of_nonneg (le_of_not_lt hc)]

/-- Witness for C1 at concrete inputs: a raw result of 7 is returned as 7,
a raw result of -2 with errno 9 raises the structured error carrying 9. -/
theorem ioctl_dispatch_contract_witness :
    utility.ioctlCall (fun _ _ _ => 7) 9 1 2 3 = .ok 7
    ∧ utility.ioctlCall (fun _ _ _ => -2) 9 1 2 3 = .error ⟨9⟩ :=
  ⟨(ioctl_dispatch_contract (fun _ _ _ => 7) 9 1 2 3).1 (by decide),
   (ioctl_dispatch_contract (fun _ _ _ => -2) 9 1 2 3).2.1 (by decide)⟩

/-- Claim C2: for every count `n`, the `MsrList` capacity constructor
yields a zero-initialized trailing array, sets the header count field to
`n`, `size()` returns `n`, and iterating from `begin()` to `end()` yields
exactly `n` (zero) elements; `n = 0` gives a valid empty iteration range. -/
theorem fam_alloc_count_and_iter (n : Nat) :
    (MsrList.alloc n).nmsrs = n
    ∧ (MsrList.alloc n).size = n
    ∧ (MsrList.alloc n).iter = List.replicate n msrEntryZero
    ∧ ((MsrList.alloc n).iter).length = n
    ∧ (MsrList.alloc 0).iter = [] := by
  refine ⟨rfl, rfl, ?_, ?_, rfl⟩
  · simp [MsrList.iter, MsrList.alloc]
  · simp [MsrList.iter, MsrList.alloc]

/-- Claim C3 (code bug): evaluated at one element, the `CpuidList`
constructor's backing allocation is `(1 * 40 + 2) * 4 = 168` bytes, four
times the exact size `8 + 1 * 40 = 48` documented in its own comment
(types.cpp lines 114-116); `MsrList` is exactly sized; the
`IrqRoutingList` unit count `1 * 24 + 1` is inexact whether its buffer
unit is 4 or 8 bytes. -/
theorem cpuid_alloc_not_exact :
    CpuidList.allocBytes 1 = 168
    ∧ famExactBytes kvmCpuid2HeaderSize kvmCpuidEntry2Size 1 = 48
    ∧ CpuidList.allocBytes 1
        ≠ famExactBytes kvmCpuid2HeaderSize kvmCpuidEntry2Size 1
    ∧ MsrList.allocBytes 1 = famExactBytes kvmMsrsHeaderSize kvmMsrEntrySize 1
    ∧ IrqRoutingList.allocUnits 1 * uint32Size
        ≠ famExactBytes kvmIrqRoutingHeaderSize kvmIrqRoutingEntrySize 1
    ∧ IrqRoutingList.allocUnits 1 * uint64Size
        ≠ famExactBytes kvmIrqRoutingHeaderSize kvmIrqRoutingEntrySize 1 := by
  decide

/-- Claim C6: constructing a FAM record from a range sets the count to the
range's length and the always-true `copy_if` predicate makes the fill an
unconditional identity copy, so iteration yields exactly the input
sequence in order — for `MsrList` and `CpuidList` alike. -/
theorem from_range_identity_copy (es : List kvm_msr_entry)
    (cs : List kvm_cpuid_entry2) :
    (MsrList.fromRange es).nmsrs = es.length
    ∧ (MsrList.fromRange es).iter = es
    ∧ (CpuidList.fromRange cs).nent = cs.length
    ∧ (CpuidList.fromRange cs).iter = cs :=
  ⟨MsrList.fromRange_nmsrs es, MsrList.fromRange_iter es, rfl,
   CpuidList.cpuidFromRange_iter cs⟩

/-- Claim C7: the defaulted move constructor transfers the allocation
index to the destination — which therefore iterates exactly the content
the source held — and nulls the source's owning pointer; the
swap-based assignment path `lhs = std::move(rhs)` likewise leaves the new
`lhs` holding the source's allocation and the source null.  No new
allocation is made, so ownership is transferred, never duplicated. -/
theorem msr_move_transfer (s : Store) (h t : Option Nat) :
    (msrMoveCtor h).1 = h
    ∧ (msrMoveCtor h).2 = none
    ∧ handleIter s (msrMoveCtor h).1 = handleIter s h
    ∧ (msrMoveAssign t h).1 = h
    ∧ (msrMoveAssign t h).2 = none
    ∧ handleIter s (msrMoveAssign t h).1 = handleIter s h :=
  ⟨rfl, rfl, rfl, rfl, rfl, rfl⟩

/-- Claim C8 counterexample: `MsrIndexList`'s public non-const `begin()`
returns a mutable `uint32_t*`; storing through it changes the elements the
list yields, so iteration is not read-only.  Concretely, on the list with
count 2 and indices `[0x10, 0x20]`, a store of `0x99` at offset 0 through
`begin()` changes the iterated sequence. -/
theorem msr_index_write_counterexample :
    (MsrIndexList.storeThroughBegin ⟨2, [0x10, 0x20]⟩ 0 0x99).iter
      ≠ (MsrIndexList.mk 2 [0x10, 0x20]).iter := by
  decide

/-- Claim C8 amended: the index lists expose no mutating member functions,
but the non-const `begin()`/`end()` overloads return mutable pointers, so
element values can be changed in place through the iteration interface;
such stores never change the count (`size()`) or the number of elements
iteration yields. -/
theorem msr_index_store_preserves_count (l : MsrIndexList) (j v : Nat) :
    (l.storeThroughBegin j v).size = l.size
    ∧ (l.storeThroughBegin j v).nmsrs = l.nmsrs
    ∧ ((l.storeThroughBegin j v).iter).length = (l.iter).length := by
  refine ⟨rfl, rfl, ?_⟩
  simp [MsrIndexList.iter, MsrIndexList.storeThroughBegin]

/-- Claim C4: the copy constructor, which re-copies the source's element
range through the range constructor, produces a fresh allocation (a new
store index), element-wise equal to the source with equal count, exactly
sized to the source's current count; mutating any element of the copy
leaves the source's buffer unchanged, and making the copy itself leaves
the source's buffer unchanged. -/
theorem msr_copy_deep (s : Store) (src : Nat)
    (hsrc : src < s.bufs.length)
    (hwf : (s.get src).entries.length = (s.get src).nmsrs) :
    (s.msrCopy src).2 ≠ src
    ∧ ((s.msrCopy src).1.get (s.msrCopy src).2).iter = (s.get src).iter
    ∧ ((s.msrCopy src).1.get (s.msrCopy src).2).nmsrs = (s.get src).nmsrs
    ∧ ((s.msrCopy src).1.get (s.msrCopy src).2).entries.length
        = (s.get src).nmsrs
    ∧ (s.msrCopy src).1.get src = s.get src
    ∧ ∀ j v, ((s.msrCopy src).1.setEntry (s.msrCopy src).2 j v).get src
        = s.get src := by
  have hidx : (s.msrCopy src).2 = s.bufs.length := rfl
  have hget : (s.msrCopy src).1.get (s.msrCopy src).2
      = MsrList.fromRange ((s.get src).iter) :=
    Store.get_alloc_self s (MsrList.fromRange ((s.get src).iter))
  have hold : (s.msrCopy src).1.get src = s.get src :=
    Store.get_alloc_lt s (MsrList.fromRange ((s.get src).iter)) src hsrc
  refine ⟨?_, ?_, ?_, ?_, hold, ?_⟩
  · rw [hidx]; exact Nat.ne_of_gt hsrc
  · rw [hget]; exact MsrList.fromRange_iter _
  · rw [hget, MsrList.fromRange_nmsrs]
    exact MsrList.iter_length_of_wf _ hwf
  · rw [hget, MsrList.fromRange_entries]
    exact MsrList.iter_length_of_wf _ hwf
  · intro j v
    rw [Store.get_setEntry_ne _ _ _ _ _ (by rw [hidx]; exact Nat.ne_of_lt hsrc)]
    exact hold

/-- Witness for C4: in a store holding one two-entry `MsrList`, copying
buffer 0 yields a buffer that iterates the same two entries. -/
theorem msr_copy_deep_witness :
    0 < (Store.mk [MsrList.mk 2 [⟨0x174, 0, 0⟩, ⟨0x175, 0, 1⟩]]).bufs.length
    ∧ (((Store.mk [MsrList.mk 2 [⟨0x174, 0, 0⟩, ⟨0x175, 0, 1⟩]]).msrCopy 0).1.get
          ((Store.mk [MsrList.mk 2 [⟨0x174, 0, 0⟩, ⟨0x175, 0, 1⟩]]).msrCopy 0).2).iter
      = ((Store.mk [MsrList.mk 2 [⟨0x174, 0, 0⟩, ⟨0x175, 0, 1⟩]]).get 0).iter :=
  ⟨by decide,
   (msr_copy_deep (Store.mk [MsrList.mk 2 [⟨0x174, 0, 0⟩, ⟨0x175, 0, 1⟩]]) 0
      (by decide) (by decide)).2.1⟩

/-- Claim C5 counterexample: `system::close()` carries no idempotence
guard — only the destructor tests `closed_` — so a second explicit
release call issues the platform close again: starting from a fresh
handle, two explicit `close()` calls issue two platform close operations,
refuting "the platform close operation is issued at most once per Handle
instance" for the second-explicit-release case. -/
theorem system_close_twice_counterexample :
    (systemClose ⟨false, 0⟩ 0 0).1.closeCalls = 1
    ∧ (systemClose (systemClose ⟨false, 0⟩ 0 0).1 0 0).1.closeCalls = 2 := by
  decide

/-- Claim C5 amended: after a successful explicit `release()` the
`closed_` flag is set and the implicit teardown is a no-op (no further
close is issued), and a destructor-time close attempt always completes
normally with any failure swallowed; but a second *explicit* release is
not guarded and issues the platform close again. -/
theorem system_release_guard (st : SystemState) (ret dret : Int)
    (errno derrno : Nat) (hok : 0 ≤ ret) :
    (systemClose st ret errno).2 = .ok ()
    ∧ (systemClose st ret errno).1.closed_ = true
    ∧ systemDtor (systemClose st ret errno).1 dret derrno
        = (systemClose st ret errno).1
    ∧ (∀ c : Nat, systemDtor ⟨false, c⟩ dret derrno = ⟨false, c + 1⟩)
    ∧ (systemClose (systemClose st ret errno).1 ret errno).1.closeCalls
        = st.closeCalls + 2 := by
  have hret : ¬ ret < 0 := not_lt.mpr hok
  refine ⟨?_, ?_, ?_, ?_, ?_⟩
  · simp [systemClose, utilsClose, hret]
  · simp [systemClose, utilsClose, hret]
  · simp [systemClose, utilsClose, systemDtor, hret]
  · intro c
    simp [systemDtor, utilsClose]
  · simp [systemClose, utilsClose, hret]

/-- Witness for C5's amended theorem: on a fresh handle, a successful
explicit release followed by teardown leaves the state unchanged by the
teardown. -/
theorem system_release_guard_witness :
    systemDtor (systemClose ⟨false, 0⟩ 0 5).1 (-1) 7
      = (systemClose ⟨false, 0⟩ 0 5).1 :=
  (system_release_guard ⟨false, 0⟩ 0 (-1) 5 7 (by decide)).2.2.1

/-- Claim C9: `system::vm()` queries the shared-memory region size through
the root and caches it in the new machine node, so a successful derivation
returns a `vm` whose `mmap_size()` is exactly what the root's
`vcpu_mmap_size()` query returns directly; if either the size query or the
creation request reports a negative result, the derivation propagates the
structured error instead. -/
theorem system_vm_caches_mmap_size (platform : Nat → Nat → Nat → Int)
    (errno fd : Nat) :
    (∀ v : Vm, system.vm platform errno fd = .ok v →
      system.vcpu_mmap_size platform errno fd = .ok v.mmap_size)
    ∧ (platform fd KVM_GET_VCPU_MMAP_SIZE 0 < 0 →
      system.vm platform errno fd = .error ⟨errno⟩)
    ∧ (0 ≤ platform fd KVM_GET_VCPU_MMAP_SIZE 0 →
      platform fd KVM_CREATE_VM 0 < 0 →
      system.vm platform errno fd = .error ⟨errno⟩)
    ∧ (0 ≤ platform fd KVM_GET_VCPU_MMAP_SIZE 0 →
      0 ≤ platform fd KVM_CREATE_VM 0 →
      system.vm platform errno fd
        = .ok ⟨(platform fd KVM_CREATE_VM 0).toNat,
               (platform fd KVM_GET_VCPU_MMAP_SIZE 0).toNat⟩) := by
  by_cases h1 : platform fd KVM_GET_VCPU_MMAP_SIZE 0 < 0
  · refine ⟨?_, ?_, ?_, ?_⟩
    · intro v hv
      simp [system.vm, system.vcpu_mmap_size, system.create_vm,
        utility.ioctlCall, utility.ioctl, h1] at hv
    · intro _
      simp [system.vm, system.vcpu_mmap_size, system.create_vm,
        utility.ioctlCall, utility.ioctl, h1]
    · intro h _; exact absurd h1 (not_lt.mpr h)
    · intro h _; exact absurd h1 (not_lt.mpr h)
  · by_cases h2 : platform fd KVM_CREATE_VM 0 < 0
    · refine ⟨?_, ?_, ?_, ?_⟩
      · intro v hv
        simp [system.vm, system.vcpu_mmap_size, system.create_vm,
          utility.ioctlCall, utility.ioctl, h1, h2] at hv
      · intro h; exact absurd h h1
      · intro _ _
        simp [system.vm, system.vcpu_mmap_size, system.create_vm,
          utility.ioctlCall, utility.ioctl, h1, h2]
      · intro _ h; exact absurd h2 (not_lt.mpr h)
    · refine ⟨?_, ?_, ?_, ?_⟩
      · intro v hv
        simp [system.vm, system.vcpu_mmap_size, system.create_vm,
          utility.ioctlCall, utility.ioctl, h1, h2, Vm.mmap_size] at hv ⊢
        rw [← hv]
      · intro h; exact absurd h h1
      · intro _ h; exact absurd h h2
      · intro _ _
        simp [system.vm, system.vcpu_mmap_size, system.create_vm,
          utility.ioctlCall, utility.ioctl, h1, h2]

/-- Witness for C9: with a platform answering 4096 to the size query and 5
to the creation request, the derived machine node carries mmap size
4096 and fd 5. -/
theorem system_vm_caches_mmap_size_witness :
    system.vm
      (fun _ req _ => if req = KVM_GET_VCPU_MMAP_SIZE then 4096
                      else if req = KVM_CREATE_VM then 5 else 0) 7 3
      = .ok ⟨5, 4096⟩ :=
  (system_vm_caches_mmap_size
      (fun _ req _ => if req = KVM_GET_VCPU_MMAP_SIZE then 4096
                      else if req = KVM_CREATE_VM then 5 else 0) 7 3).2.2.2
    (by decide) (by decide)

/-- Claim C10: each vm limit query substitutes its fixed default when the
capability check returns 0 — `num_vcpus()` returns 4, `max_vcpus()` falls
back to `num_vcpus()`, `num_memslots()` returns 32 — and returns the
capability value unchanged whenever it is positive. -/
theorem vm_limit_defaults (platform : Nat → Nat → Nat → Int)
    (errno : Nat) (v : Vm) :
    (platform v.m_fd KVM_CHECK_EXTENSION KVM_CAP_NR_VCPUS = 0 →
      v.num_vcpus platform errno = .ok 4)
    ∧ (∀ k : Nat, 0 < k →
      platform v.m_fd KVM_CHECK_EXTENSION KVM_CAP_NR_VCPUS = (k : Int) →
      v.num_vcpus platform errno = .ok k)
    ∧ (platform v.m_fd KVM_CHECK_EXTENSION KVM_CAP_MAX_VCPUS = 0 →
      v.max_vcpus platform errno = v.num_vcpus platform errno)
    ∧ (∀ k : Nat, 0 < k →
      platform v.m_fd KVM_CHECK_EXTENSION KVM_CAP_MAX_VCPUS = (k : Int) →
      v.max_vcpus platform errno = .ok k)
    ∧ (platform v.m_fd KVM_CHECK_EXTENSION KVM_CAP_NR_MEMSLOTS = 0 →
      v.num_memslots platform errno = .ok 32)
    ∧ (∀ k : Nat, 0 < k →
      platform v.m_fd KVM_CHECK_EXTENSION KVM_CAP_NR_MEMSLOTS = (k : Int) →
      v.num_memslots platform errno = .ok k) := by
  refine ⟨?_, ?_, ?_, ?_, ?_, ?_⟩
  · intro h
    simp [Vm.num_vcpus, Vm.check_extension, utility.ioctlCall,
      utility.ioctl, h]
  · intro k hk h
    have hk0 : ¬ ((k : Int) < 0) := not_lt.mpr (Int.natCast_nonneg k)
    simp [Vm.num_vcpus, Vm.check_extension, utility.ioctlCall,
      utility.ioctl, h, hk0, hk]
  · intro h
    simp [Vm.max_vcpus, Vm.check_extension, utility.ioctlCall,
      utility.ioctl, h]
  · intro k hk h
    have hk0 : ¬ ((k : Int) < 0) := not_lt.mpr (Int.natCast_nonneg k)
    simp [Vm.max_vcpus, Vm.check_extension, utility.ioctlCall,
      utility.ioctl, h, hk0, hk]
  · intro h
    simp [Vm.num_memslots, Vm.check_extension, utility.ioctlCall,
      utility.ioctl, h]
  · intro k hk h
    have hk0 : ¬ ((k : Int) < 0) := not_lt.mpr (Int.natCast_nonneg k)
    simp [Vm.num_memslots, Vm.check_extension, utility.ioctlCall,
      utility.ioctl, h, hk0, hk]

/-- Witness for C10: with the recommended-count capability unsupported,
the maximum capability at 8 and the memslot capability unsupported, the
queries return the defaults 4 and 32 and the positive value 8 unchanged. -/
theorem vm_limit_defaults_witness :
    Vm.num_vcpus
        (fun _ _ cap => if cap = KVM_CAP_MAX_VCPUS then 8 else 0) 7 ⟨5, 4096⟩
      = .ok 4
    ∧ Vm.max_vcpus
        (fun _ _ cap => if cap = KVM_CAP_MAX_VCPUS then 8 else 0) 7 ⟨5, 4096⟩
      = .ok 8
    ∧ Vm.num_memslots
        (fun _ _ cap => if cap = KVM_CAP_MAX_VCPUS then 8 else 0) 7 ⟨5, 4096⟩
      = .ok 32 :=
  ⟨(vm_limit_defaults
      (fun _ _ cap => if cap = KVM_CAP_MAX_VCPUS then 8 else 0) 7
      ⟨5, 4096⟩).1 (by decide),
   (vm_limit_defaults
      (fun _ _ cap => if cap = KVM_CAP_MAX_VCPUS then 8 else 0) 7
      ⟨5, 4096⟩).2.2.2.1 8 (by decide) (by decide),
   (vm_limit_defaults
      (fun _ _ cap => if cap = KVM_CAP_MAX_VCPUS then 8 else 0) 7
      ⟨5, 4096⟩).2.2.2.2.1 (by decide)⟩

end Libvmm
